import Mathlib

/-!
Shallow embedding of the `Numeric` expression compiler
(src/numeric/numeric.h, src/numeric/numeric.cpp).

Modelling conventions:
* C++ `double` is modelled as `ℚ` (exact rational arithmetic); all of the
  source's constants (0.0254, 1e-14, ...) are exact decimal literals, so they
  embed exactly.
* `std::unordered_map` tables rebuilt by `SetUnitOut` are modelled as pure
  association lists indexed by the selected output system (`mapUnitsList`,
  `mapUnitLookupList`); `operator[]` misses (which default-construct in C++)
  are modelled with `Option.getD` of the default-constructed value.
* thrown `CompilerError`s are modelled with `Except CompilerError`.
* the preprocessor configuration of the source build is `OUTPUT_TO_CM = 0`,
  `OUTPUT_TO_YARDS = 0`; only the corresponding `#else` branches are embedded.
-/

namespace Numeric

inductive UnitType
  | Generic
  | Metric
  | Imperial
deriving DecidableEq, Repr

structure Unit where
  scale : ℚ := 1
  type : UnitType := .Generic
deriving DecidableEq, Repr

structure Solution where
  value : ℚ
  units : Unit
deriving DecidableEq, Repr

inductive TokenType
  | Unknown
  | Literal_Numeric
  | Operator
  | Parenthesis_Open
  | Parenthesis_Close
  | Symbol
  | Unit
deriving DecidableEq, Repr

structure Token where
  pos : Nat := 0
  type : TokenType := .Unknown
  text : String := ""
  value : ℚ := 0
deriving DecidableEq, Repr

structure Operator where
  precedence : Int := 0
  arguments : Nat := 0
deriving DecidableEq, Repr

/-- Stage of `Numeric::CompilerError`. -/
inductive Stage
  | Parser
  | Solver
deriving DecidableEq, Repr

structure CompilerError where
  stage : Stage
  msg : String
deriving DecidableEq, Repr

/-- The `_message` built by the `CompilerError` constructor. -/
def CompilerError.what (e : CompilerError) : String :=
  match e.stage with
  | .Parser => "[PARSE] " ++ e.msg
  | .Solver => "[SOLVE] " ++ e.msg

/-- An apostrophe character (ASCII 39), written by code point to keep source
literals simple. -/
def apostropheChar : Char := Char.ofNat 39

/-- Quote a character between apostrophes, as in the C++ error messages. -/
def quoteChar (c : Char) : String := String.mk [apostropheChar, c, apostropheChar]

/-- Message of the two parenthesis-balance throws in `Parse`. -/
def msgParenNotBalanced : String :=
  "Parenthesis " ++ quoteChar (Char.ofNat 40) ++ " & " ++ quoteChar (Char.ofNat 41)
    ++ " not balanced"

/-! Character lookup tables (`Numeric::lut::MakeLUT` applications). -/

def gWhitespaceDigits (c : Char) : Bool := (" \t\n\r\x0b\x0c".toList).contains c

def gFirstNumericDigits (c : Char) : Bool := ("0123456789".toList).contains c

def gAdditionalNumericDigits (c : Char) : Bool := (".,0123456789".toList).contains c

def gOperatorDigits (c : Char) : Bool := ("*+-/".toList).contains c

def gUnitDigits (c : Char) : Bool :=
  ("mMkKcfootfeetinchesyardsmiles\"".toList ++ [apostropheChar]).contains c

def gAllowedHexDigits (c : Char) : Bool := ("0123456789abcdefABCDEF".toList).contains c

def gAllowedBinaryDigits (c : Char) : Bool := ("01".toList).contains c

def gDenominatorTable : List Nat := [2, 3, 4, 5, 6, 7, 8, 10, 12, 16, 32, 64, 128, 1000]

/-! Scale constants of `Numeric::Compiler`. -/

def metricScaleInch : ℚ := 0.0254
def metricScaleFoot : ℚ := 0.3048
def metricScaleYard : ℚ := 0.9144
def metricScaleMile : ℚ := 1609.344

def impScaleThou : ℚ := 1
def impScaleInch : ℚ := 1000
def impScaleFoot : ℚ := 12 * impScaleInch
def impScaleYard : ℚ := 3 * impScaleFoot
def impScaleMile : ℚ := 5280 * impScaleFoot

/-- The operator table installed by the `Compiler` constructor. -/
def mapOperators (s : String) : Option Operator :=
  if s = "*" then some ⟨3, 2⟩
  else if s = "/" then some ⟨3, 2⟩
  else if s = "+" then some ⟨1, 2⟩
  else if s = "-" then some ⟨1, 2⟩
  else if s = "u+" then some ⟨100, 1⟩
  else if s = "u-" then some ⟨100, 1⟩
  else none

/-- C++ `_mapOperators[s]`: a miss default-constructs `Operator{0, 0}`. -/
def opLookup (s : String) : Operator := (mapOperators s).getD ⟨0, 0⟩

/-- The `'` unit name (foot mark). -/
def footMarkStr : String := String.mk [apostropheChar]

/-- Forward unit table built by `SetUnitOut` for the selected output system.
Note the `else` branch of the source covers both `Metric` and `Generic`. -/
def mapUnitsList (desired : UnitType) : List (String × Unit) :=
  if desired = .Imperial then
    [ ("mm", ⟨1 / metricScaleInch, .Metric⟩),
      ("cm", ⟨10 / metricScaleInch, .Metric⟩),
      ("m", ⟨1000 / metricScaleInch, .Metric⟩),
      ("Km", ⟨1000000 / metricScaleInch, .Metric⟩),
      ("km", ⟨1000000 / metricScaleInch, .Metric⟩),
      ("Mm", ⟨1000000000 / metricScaleInch, .Metric⟩),
      ("th", ⟨impScaleThou, .Imperial⟩),
      ("thou", ⟨impScaleThou, .Imperial⟩),
      ("mil", ⟨impScaleThou, .Imperial⟩),
      ("in", ⟨impScaleInch, .Imperial⟩),
      ("inch", ⟨impScaleInch, .Imperial⟩),
      ("inches", ⟨impScaleInch, .Imperial⟩),
      ("\"", ⟨impScaleInch, .Imperial⟩),
      ("ft", ⟨impScaleFoot, .Imperial⟩),
      ("foot", ⟨impScaleFoot, .Imperial⟩),
      ("feet", ⟨impScaleFoot, .Imperial⟩),
      (footMarkStr, ⟨impScaleFoot, .Imperial⟩),
      ("yd", ⟨impScaleYard, .Imperial⟩),
      ("yard", ⟨impScaleYard, .Imperial⟩),
      ("yds", ⟨impScaleYard, .Imperial⟩),
      ("yards", ⟨impScaleYard, .Imperial⟩),
      ("mi", ⟨impScaleMile, .Imperial⟩),
      ("mile", ⟨impScaleMile, .Imperial⟩),
      ("miles", ⟨impScaleMile, .Imperial⟩) ]
  else
    [ ("mm", ⟨0.001, .Metric⟩),
      ("cm", ⟨0.01, .Metric⟩),
      ("m", ⟨1, .Metric⟩),
      ("Km", ⟨1000, .Metric⟩),
      ("km", ⟨1000, .Metric⟩),
      ("Mm", ⟨1000000, .Metric⟩),
      ("in", ⟨metricScaleInch, .Imperial⟩),
      ("inch", ⟨metricScaleInch, .Imperial⟩),
      ("inches", ⟨metricScaleInch, .Imperial⟩),
      ("\"", ⟨metricScaleInch, .Imperial⟩),
      ("ft", ⟨metricScaleFoot, .Imperial⟩),
      ("foot", ⟨metricScaleFoot, .Imperial⟩),
      ("feet", ⟨metricScaleFoot, .Imperial⟩),
      (footMarkStr, ⟨metricScaleFoot, .Imperial⟩),
      ("yd", ⟨metricScaleYard, .Imperial⟩),
      ("yard", ⟨metricScaleYard, .Imperial⟩),
      ("yds", ⟨metricScaleYard, .Imperial⟩),
      ("yards", ⟨metricScaleYard, .Imperial⟩),
      ("mi", ⟨metricScaleMile, .Imperial⟩),
      ("mile", ⟨metricScaleMile, .Imperial⟩),
      ("miles", ⟨metricScaleMile, .Imperial⟩) ]

def mapUnits (desired : UnitType) (s : String) : Option Unit :=
  (mapUnitsList desired).lookup s

/-- C++ `_mapUnits.contains(s)`. -/
def mapUnitsContains (desired : UnitType) (s : String) : Bool :=
  (mapUnits desired s).isSome

/-- C++ `_mapUnits[s]`: a miss default-constructs `Unit{1.0, Generic}`. -/
def mapUnitsGet (desired : UnitType) (s : String) : Unit :=
  (mapUnits desired s).getD ⟨1, .Generic⟩

/-- Reverse lookup table (`_mapUnitLookup`) built by `SetUnitOut`. -/
def mapUnitLookupList (desired : UnitType) : List (ℚ × String) :=
  if desired = .Imperial then
    [ (0.001 / metricScaleFoot, "mm"),
      (0.01 / metricScaleFoot, "cm"),
      (1 / metricScaleFoot, "m"),
      (1000 / metricScaleFoot, "Km"),
      (1000000 / metricScaleFoot, "Mm"),
      (impScaleThou, "th"),
      (impScaleInch, "in"),
      (impScaleFoot, "ft"),
      (impScaleYard, "yd"),
      (impScaleMile, "mi") ]
  else
    [ (0.001, "mm"),
      (0.01, "cm"),
      (1, "m"),
      (1000, "Km"),
      (1000000, "Mm"),
      (metricScaleInch, "in"),
      (metricScaleFoot, "ft"),
      (metricScaleYard, "yd"),
      (metricScaleMile, "mi") ]

/-- Compiler configuration state relevant to the claims: the active output
system (`_desiredUnitType`), the `_imperialFractions` flag, and the locale
decimal point cached by `Parse`. -/
structure Config where
  desiredUnitType : UnitType := .Metric
  imperialFractions : Bool := true
  localeDecimalPoint : Char := Char.ofNat 46
deriving DecidableEq, Repr

/-- `Numeric::Compiler::DefaultUnit`. -/
def DefaultUnit (cfg : Config) : Unit :=
  if cfg.desiredUnitType = .Generic ∨ cfg.desiredUnitType = .Metric then
    ⟨1, cfg.desiredUnitType⟩
  else
    ⟨impScaleFoot, cfg.desiredUnitType⟩

/-! Numeric-string helpers modelling `std::stod` / `std::stoll`. -/

def digitVal (c : Char) : Nat := c.toNat - 48

def decDigitsToNat (cs : List Char) : Nat :=
  cs.foldl (fun a c => a * 10 + digitVal c) 0

def hexDigitVal (c : Char) : Nat :=
  if 97 ≤ c.toNat then c.toNat - 87
  else if 65 ≤ c.toNat then c.toNat - 55
  else c.toNat - 48

def hexDigitsToNat (cs : List Char) : Nat :=
  cs.foldl (fun a c => a * 16 + hexDigitVal c) 0

def binDigitsToNat (cs : List Char) : Nat :=
  cs.foldl (fun a c => a * 2 + digitVal c) 0

/-- Model of `std::stod` on the token text accumulated by the
`NumericLiteral` state: digits with at most one locale decimal point. -/
def stod (locale : Char) (cs : List Char) : ℚ :=
  let ip := cs.takeWhile (fun c => c ≠ locale)
  let fp := (cs.dropWhile (fun c => c ≠ locale)).drop 1
  (decDigitsToNat ip : ℚ) + (decDigitsToNat fp : ℚ) / (10 : ℚ) ^ fp.length

/-! Tokenizer states of `Numeric::Compiler::Parse`, one scanning function per
looping state. Each returns the accumulated lexeme and the unconsumed rest of
the input. The `NewToken` dispatch and single-step states live in `tokenize`. -/

/-- `TokeniserState::NumericLiteral`. The end-of-input NUL sentinel of
`PeekInput` is the `[]` case: NUL is not a numeric character, so it banks. -/
def scanNumericLiteral (locale : Char) (acc : List Char) (bDecimalPointFound : Bool) :
    List Char → Except CompilerError (List Char × List Char)
  | [] => .ok (acc, [])
  | c :: rest =>
    if gAdditionalNumericDigits c || c = locale then
      if gFirstNumericDigits c then
        scanNumericLiteral locale (acc ++ [c]) bDecimalPointFound rest
      else if bDecimalPointFound then
        .error ⟨.Parser, "Bad numeric construction"⟩
      else
        scanNumericLiteral locale (acc ++ [locale]) true rest
    else
      .ok (acc, c :: rest)

/-- `TokeniserState::HexNumericLiteral`: returns the full lexeme, the digits
after the prefix (`sPrefixedNumericLiteralToken`), and the rest. -/
def scanHexLiteral (acc pref : List Char) :
    List Char → Except CompilerError (List Char × List Char × List Char)
  | [] =>
    if pref.isEmpty then .error ⟨.Parser, "Invalid prefixed numeric literal"⟩
    else .ok (acc, pref, [])
  | c :: rest =>
    if gAllowedHexDigits c then
      scanHexLiteral (acc ++ [c]) (pref ++ [c]) rest
    else if pref.isEmpty then
      .error ⟨.Parser, "Invalid prefixed numeric literal"⟩
    else
      .ok (acc, pref, c :: rest)

/-- `TokeniserState::BinNumericLiteral`. -/
def scanBinLiteral (acc pref : List Char) :
    List Char → Except CompilerError (List Char × List Char × List Char)
  | [] =>
    if pref.isEmpty then .error ⟨.Parser, "Invalid prefixed numeric literal"⟩
    else .ok (acc, pref, [])
  | c :: rest =>
    if gAllowedBinaryDigits c then
      scanBinLiteral (acc ++ [c]) (pref ++ [c]) rest
    else if pref.isEmpty then
      .error ⟨.Parser, "Invalid prefixed numeric literal"⟩
    else
      .ok (acc, pref, c :: rest)

/-- `TokeniserState::Operator` (greedy longest match). -/
def scanOperator (acc : List Char) :
    List Char → Except CompilerError (List Char × List Char)
  | [] =>
    if (mapOperators (String.mk acc)).isSome then .ok (acc, [])
    else .error ⟨.Parser, "Unknown operator: " ++ String.mk acc⟩
  | c :: rest =>
    if gOperatorDigits c then
      if (mapOperators (String.mk (acc ++ [c]))).isSome then
        scanOperator (acc ++ [c]) rest
      else if (mapOperators (String.mk acc)).isSome then
        .ok (acc, c :: rest)
      else
        scanOperator (acc ++ [c]) rest
    else
      if (mapOperators (String.mk acc)).isSome then .ok (acc, c :: rest)
      else .error ⟨.Parser, "Unknown operator: " ++ String.mk acc⟩

/-- `TokeniserState::Unit_or_Symbol` character accumulation. -/
def scanUnitOrSymbol (acc : List Char) : List Char → (List Char × List Char)
  | [] => (acc, [])
  | c :: rest =>
    if gUnitDigits c then scanUnitOrSymbol (acc ++ [c]) rest
    else (acc, c :: rest)

/-- Main tokenizer loop (`TokeniserState::NewToken` dispatch plus the
single-step states). `fuel` bounds the iteration count; every recursive call
consumes at least one input character, so the `Parse` wrapper's fuel of
`length + 1` makes the out-of-fuel branch unreachable. -/
def tokenize (cfg : Config) :
    Nat → List Char → Nat → Nat → List Token → Except CompilerError (List Token)
  | 0, _, _, _, _ => .error ⟨.Parser, "Tokenizer fuel exhausted"⟩
  | _ + 1, [], _, balance, acc =>
    if balance ≠ 0 then .error ⟨.Parser, msgParenNotBalanced⟩
    else .ok acc
  | fuel + 1, c :: rest, pos, balance, acc =>
    if c = Char.ofNat 0 then
      -- PeekInput's NUL sentinel: an embedded NUL ends the scan like end of input
      if balance ≠ 0 then .error ⟨.Parser, msgParenNotBalanced⟩
      else .ok acc
    else if gWhitespaceDigits c then
      tokenize cfg fuel rest (pos + 1) balance acc
    else if gFirstNumericDigits c then
      -- numeric literal (with PrefixedNumericLiteral deferral on a leading 0)
      match rest with
      | d :: rest2 =>
        if c = Char.ofNat 48 ∧ (d = Char.ofNat 120 ∨ d = Char.ofNat 88) then
          -- "0x" / "0X"
          match scanHexLiteral [c, d] [] rest2 with
          | .error e => .error e
          | .ok (t, pref, r) =>
            let tok : Token := ⟨pos, .Literal_Numeric, String.mk t, (hexDigitsToNat pref : ℚ)⟩
            tokenize cfg fuel r (pos + ((c :: rest).length - r.length)) balance (acc ++ [tok])
        else if c = Char.ofNat 48 ∧ (d = Char.ofNat 98 ∨ d = Char.ofNat 66) then
          -- "0b" / "0B"
          match scanBinLiteral [c, d] [] rest2 with
          | .error e => .error e
          | .ok (t, pref, r) =>
            let tok : Token := ⟨pos, .Literal_Numeric, String.mk t, (binDigitsToNat pref : ℚ)⟩
            tokenize cfg fuel r (pos + ((c :: rest).length - r.length)) balance (acc ++ [tok])
        else
          match scanNumericLiteral cfg.localeDecimalPoint [c] false rest with
          | .error e => .error e
          | .ok (t, r) =>
            let tok : Token := ⟨pos, .Literal_Numeric, String.mk t, stod cfg.localeDecimalPoint t⟩
            tokenize cfg fuel r (pos + ((c :: rest).length - r.length)) balance (acc ++ [tok])
      | [] =>
        -- single digit then end of input
        let tok : Token := ⟨pos, .Literal_Numeric, String.mk [c], stod cfg.localeDecimalPoint [c]⟩
        tokenize cfg fuel [] (pos + 1) balance (acc ++ [tok])
    else if gOperatorDigits c then
      match scanOperator [] (c :: rest) with
      | .error e => .error e
      | .ok (t, r) =>
        let tok : Token := ⟨pos, .Operator, String.mk t, 0⟩
        tokenize cfg fuel r (pos + ((c :: rest).length - r.length)) balance (acc ++ [tok])
    else if c = Char.ofNat 40 then
      -- '('
      let tok : Token := ⟨pos, .Parenthesis_Open, String.mk [c], 0⟩
      tokenize cfg fuel rest (pos + 1) (balance + 1) (acc ++ [tok])
    else if c = Char.ofNat 41 then
      -- ')'
      if balance = 0 then .error ⟨.Parser, msgParenNotBalanced⟩
      else
        let tok : Token := ⟨pos, .Parenthesis_Close, String.mk [c], 0⟩
        tokenize cfg fuel rest (pos + 1) (balance - 1) (acc ++ [tok])
    else if gUnitDigits c then
      let (t, r) := scanUnitOrSymbol [c] rest
      let text := String.mk t
      let tok : Token :=
        if mapUnitsContains cfg.desiredUnitType text then
          ⟨pos, .Unit, text, (mapUnitsGet cfg.desiredUnitType text).scale⟩
        else
          ⟨pos, .Symbol, text, 0⟩
      tokenize cfg fuel r (pos + ((c :: rest).length - r.length)) balance (acc ++ [tok])
    else
      .error ⟨.Parser, "Unknown character " ++ quoteChar c⟩

/-- `Numeric::Compiler::Parse`. -/
def Parse (cfg : Config) (sInput : String) : Except CompilerError (List Token) :=
  if sInput = "" then .error ⟨.Parser, "No input."⟩
  else tokenize cfg (sInput.toList.length + 1) sInput.toList 0 0 []

/-! Shunting-yard conversion (first loop of `Numeric::Compiler::Solve`). The
holding stack's front is the list head; the output sequence grows at the back. -/

/-- Back-flush performed on a close parenthesis: move holding-stack tokens to
the output until an open parenthesis (or the bottom) is reached. -/
def backFlush : List Token → List Token → (List Token × List Token)
  | [], out => ([], out)
  | h :: t, out =>
    if h.type = .Parenthesis_Open then (h :: t, out)
    else backFlush t (out ++ [h])

/-- Precedence-driven pop performed before pushing an operator. The final
fall-through (a holding entry that is neither an operator nor an open
parenthesis) never occurs, because only those two kinds are ever pushed; the
C++ `while` would spin forever there, modelled here as stopping. -/
def drainOps (prec : Int) : List Token → List Token → (List Token × List Token)
  | [], out => ([], out)
  | h :: t, out =>
    if h.type = .Parenthesis_Open then (h :: t, out)
    else if h.type = .Operator then
      if prec ≤ (opLookup h.text).precedence then drainOps prec t (out ++ [h])
      else (h :: t, out)
    else (h :: t, out)

/-- Infix-to-postfix loop over the parsed tokens, also recording whether any
`Unit` token appeared (`bExplicitUnits`). `prevType` is `tokPrevious.type`. -/
def shuntLoop :
    List Token → List Token → List Token → TokenType → Nat → Bool →
      Except CompilerError (List Token × Bool)
  | [], holding, out, _, _, explicitUnits => .ok (out ++ holding, explicitUnits)
  | token :: rest, holding, out, prevType, pass, explicitUnits =>
    if token.type = .Literal_Numeric then
      shuntLoop rest holding (out ++ [token]) token.type (pass + 1) explicitUnits
    else if token.type = .Parenthesis_Open then
      shuntLoop rest (token :: holding) out token.type (pass + 1) explicitUnits
    else if token.type = .Parenthesis_Close then
      if holding.isEmpty then .error ⟨.Solver, "Unexpected close parenthesis"⟩
      else
        match backFlush holding out with
        | ([], _) => .error ⟨.Solver, "No open parenthesis found"⟩
        | (_ :: holding2, out2) =>
          shuntLoop rest holding2 out2 .Parenthesis_Close (pass + 1) explicitUnits
    else if token.type = .Unit then
      shuntLoop rest holding (out ++ [token]) token.type (pass + 1) true
    else if token.type = .Operator then
      let opText :=
        if (token.text = "-" ∨ token.text = "+") ∧
            ((prevType ≠ .Literal_Numeric ∧ prevType ≠ .Unit ∧
              prevType ≠ .Parenthesis_Close) ∨ pass = 0) then
          "u" ++ token.text
        else token.text
      match drainOps (opLookup opText).precedence holding out with
      | (holding2, out2) =>
        shuntLoop rest (⟨0, .Operator, opText, 0⟩ :: holding2) out2 .Operator (pass + 1)
          explicitUnits
    else
      .error ⟨.Solver, "Unsupported Token"⟩

/-! RPN evaluation (second loop of `Numeric::Compiler::Solve`). -/

/-- Pop `n` operands off the solve stack (`mem[0]` is the most recent). -/
def popN : Nat → List Solution → Except CompilerError (List Solution × List Solution)
  | 0, stk => .ok ([], stk)
  | _ + 1, [] => .error ⟨.Solver, "Expression is malformed"⟩
  | n + 1, s :: stk =>
    match popN n stk with
    | .error e => .error e
    | .ok (mem, rest) => .ok (s :: mem, rest)

/-- The operator case of the solver switch: `result` starts as
`{0.0, {1.0, Generic}}` and the branch for the operator text assigns it. -/
def applyOp (cfg : Config) (text : String) (op : Operator) (mem : List Solution) :
    Solution :=
  let init : Solution := ⟨0, ⟨1, .Generic⟩⟩
  if op.arguments = 2 then
    match mem with
    | m0 :: m1 :: _ =>
      if text = "/" then
        let v0 := m0.value / m0.units.scale
        let v1 := m1.value / m1.units.scale
        if m0.units.type ≠ .Generic then
          ⟨v1 / v0 * m0.units.scale, m0.units⟩
        else
          ⟨v1 / v0, ⟨1, cfg.desiredUnitType⟩⟩
      else if text = "*" then
        ⟨m1.value * m0.value, ⟨1, cfg.desiredUnitType⟩⟩
      else if text = "+" then
        let v0 := m0.value / m0.units.scale
        let v1 := m1.value / m1.units.scale
        if m0.units.type = .Generic then
          ⟨(v1 + v0) * m1.units.scale, m1.units⟩
        else if m1.units.type = .Generic then
          ⟨(v1 + v0) * m0.units.scale, m0.units⟩
        else
          ⟨m1.value + m0.value, init.units⟩
      else if text = "-" then
        let v0 := m0.value / m0.units.scale
        let v1 := m1.value / m1.units.scale
        if m0.units.type = .Generic then
          ⟨(v1 - v0) * m1.units.scale, m1.units⟩
        else if m1.units.type = .Generic then
          ⟨(v1 - v0) * m0.units.scale, m0.units⟩
        else
          -- note: the source's fully-unit-bearing "-" branch adds the raw values
          ⟨m1.value + m0.value, init.units⟩
      else init
    | _ => init
  else if op.arguments = 1 then
    match mem with
    | m0 :: _ =>
      if text = "u+" then m0
      else if text = "u-" then ⟨-m0.value, m0.units⟩
      else init
    | _ => init
  else init

/-- Solver switch over the postfix sequence, pushing onto `stkSolve`. -/
def rpnLoop (cfg : Config) : List Token → List Solution → Except CompilerError (List Solution)
  | [], stk => .ok stk
  | inst :: rest, stk =>
    if inst.type = .Literal_Numeric then
      rpnLoop cfg rest (⟨inst.value, ⟨1, .Generic⟩⟩ :: stk)
    else if inst.type = .Unit then
      match stk with
      | [] => .error ⟨.Solver, "Expression is malformed"⟩
      | mem :: stk2 =>
        rpnLoop cfg rest
          (⟨mem.value * inst.value, mapUnitsGet cfg.desiredUnitType inst.text⟩ :: stk2)
    else if inst.type = .Operator then
      let op := opLookup inst.text
      match popN op.arguments stk with
      | .error e => .error e
      | .ok (mem, stk2) => rpnLoop cfg rest (applyOp cfg inst.text op mem :: stk2)
    else
      .error ⟨.Solver, "Unexpected Token"⟩

/-! Normalisation ladders. Each loop iteration either rewrites
`result.units.scale` to another rung or stops; the ladder advances at most
three rungs, so the wrappers' fuel of 8 makes the out-of-fuel case
unreachable (it returns the state unchanged). -/

def epsilon : ℚ := 1 / 100000000000000

/-- C's `fabs`. -/
def ratAbs (q : ℚ) : ℚ := if q < 0 then -q else q

/-- C's `floor`, exact on `ℚ` (floored integer division of the numerator). -/
def ratFloor (q : ℚ) : ℤ := Int.fdiv q.num (q.den : ℤ)

/-- C's `round` (half away from zero). -/
def cppRound (q : ℚ) : ℤ :=
  if 0 ≤ q then ratFloor (q + 1 / 2) else -ratFloor (-q + 1 / 2)

/-- `Numeric::Compiler::IsEpsilonInteger`. -/
def IsEpsilonInteger (d : ℚ) : Bool :=
  ratAbs (d - (cppRound d : ℚ)) ≤ epsilon

def NormaliseImperialGo (fuel : Nat) (result : Solution) : Solution :=
  match fuel with
  | 0 => result
  | fuel + 1 =>
    let normalised := ratAbs (result.value / result.units.scale)
    if impScaleInch ≤ normalised ∧ result.units.scale = impScaleThou then
      NormaliseImperialGo fuel { result with units := { result.units with scale := impScaleInch } }
    else if 72 < normalised ∧ result.units.scale = impScaleInch then
      NormaliseImperialGo fuel { result with units := { result.units with scale := impScaleFoot } }
    else if 12 ≤ normalised ∧ result.units.scale = impScaleInch ∧
        IsEpsilonInteger (result.value / impScaleFoot) then
      NormaliseImperialGo fuel { result with units := { result.units with scale := impScaleFoot } }
    else if result.units.scale = impScaleYard then
      -- OUTPUT_TO_YARDS = 0: yards fold back into feet unconditionally
      NormaliseImperialGo fuel { result with units := { result.units with scale := impScaleFoot } }
    else if 5280 ≤ normalised ∧ result.units.scale = impScaleFoot ∧
        IsEpsilonInteger (result.value / impScaleMile) then
      NormaliseImperialGo fuel { result with units := { result.units with scale := impScaleMile } }
    else if 1760 ≤ normalised ∧ result.units.scale = impScaleYard ∧
        IsEpsilonInteger (result.value / impScaleMile) then
      NormaliseImperialGo fuel { result with units := { result.units with scale := impScaleMile } }
    else result

/-- `Numeric::Compiler::NormaliseImperial`. -/
def NormaliseImperial (cfg : Config) (result : Solution) : Solution :=
  if result.value = 0 then { result with units := DefaultUnit cfg }
  else NormaliseImperialGo 8 result

def NormaliseMetricGo (fuel : Nat) (result : Solution) : Solution :=
  match fuel with
  | 0 => result
  | fuel + 1 =>
    let normalised := ratAbs (result.value / result.units.scale)
    if 1000 ≤ normalised ∧ result.units.scale = 1000 then
      NormaliseMetricGo fuel { result with units := { result.units with scale := 1000000 } }
    else if 1000 ≤ normalised ∧ result.units.scale = 1 then
      NormaliseMetricGo fuel { result with units := { result.units with scale := 1000 } }
    else if 1000 ≤ normalised ∧ result.units.scale = 0.001 then
      NormaliseMetricGo fuel { result with units := { result.units with scale := 1 } }
    else if result.units.scale = 0.01 then
      -- OUTPUT_TO_CM = 0: centimetres fold into metres unconditionally
      NormaliseMetricGo fuel { result with units := { result.units with scale := 1 } }
    else if normalised < 1 ∧ result.units.scale = 1000000 then
      NormaliseMetricGo fuel { result with units := { result.units with scale := 1000 } }
    else if normalised < 1 ∧ result.units.scale = 1000 then
      NormaliseMetricGo fuel { result with units := { result.units with scale := 1 } }
    else if normalised < 1 ∧ result.units.scale = 1 then
      NormaliseMetricGo fuel { result with units := { result.units with scale := 0.001 } }
    else result

/-- `Numeric::Compiler::NormaliseMetric`. -/
def NormaliseMetric (cfg : Config) (result : Solution) : Solution :=
  if result.value = 0 then { result with units := DefaultUnit cfg }
  else NormaliseMetricGo 8 result

/-- Post-evaluation unit resolution, conversion and normalisation performed
by `Solve` on the single remaining stack entry. -/
def resolveUnits (cfg : Config) (result0 : Solution) (bExplicitUnits : Bool)
    (pPrevSolution : Option Solution) : Solution :=
  let result1 :=
    if bExplicitUnits = false then
      match pPrevSolution with
      | none =>
        let u : Unit := ⟨1, cfg.desiredUnitType⟩
        ⟨result0.value * u.scale, u⟩
      | some p =>
        if p.units.type = .Generic then
          let u : Unit := ⟨1, cfg.desiredUnitType⟩
          ⟨result0.value * u.scale, u⟩
        else
          ⟨result0.value * p.units.scale, p.units⟩
    else result0
  let result2 :=
    if result1.units.type ≠ cfg.desiredUnitType then
      { result1 with units := ⟨1, cfg.desiredUnitType⟩ }
    else result1
  if cfg.desiredUnitType = .Imperial then NormaliseImperial cfg result2
  else if cfg.desiredUnitType = .Metric then NormaliseMetric cfg result2
  else result2

/-- `Numeric::Compiler::Solve`. -/
def Solve (cfg : Config) (vTokens : List Token) (pPrevSolution : Option Solution) :
    Except CompilerError Solution :=
  match shuntLoop vTokens [] [] .Literal_Numeric 0 false with
  | .error e => .error e
  | .ok (stkOutput, bExplicitUnits) =>
    match rpnLoop cfg stkOutput [] with
    | .error e => .error e
    | .ok [result0] => .ok (resolveUnits cfg result0 bExplicitUnits pPrevSolution)
    | .ok _ => .error ⟨.Solver, "Indeterminate Expression"⟩

/-- `Numeric::Compiler::Eval`. -/
def Eval (cfg : Config) (sInput : String) (pPrevSolution : Option Solution) :
    Except CompilerError Solution :=
  match Parse cfg sInput with
  | .error e => .error e
  | .ok vTokens => Solve cfg vTokens pPrevSolution

/-! Formatting (`Numeric::Compiler::Format` and `UnitName`). -/

/-- Boolean equality on `ℚ` through the normalized numerator and
denominator (numeral-friendly form of decidable equality). -/
def ratEq (a b : ℚ) : Bool := a.num == b.num && a.den == b.den

/-- Reverse-map search with exact scale equality (`_mapUnitLookup.find`). -/
def lookupScale : List (ℚ × String) → ℚ → Option String
  | [], _ => none
  | (k, v) :: t, q => if ratEq q k then some v else lookupScale t q

/-- `Numeric::Compiler::UnitName` (reverse lookup; exact scale equality). -/
def UnitName (cfg : Config) (unit : Unit) : String :=
  if unit.type = .Generic then ""
  else
    match lookupScale (mapUnitLookupList cfg.desiredUnitType) unit.scale with
    | none => "<error>"
    | some s => s

/-- A C integral cast of a `double` truncates toward zero. -/
def i64Trunc (q : ℚ) : ℤ := q.num / (q.den : ℤ)

/-- Zero-pad a fractional part to the six digits `%f` always prints. -/
def padFrac6 (n : Nat) : String :=
  let s := toString n
  String.mk (List.replicate (6 - s.length) (Char.ofNat 48)) ++ s

/-- Model of `std::to_string(double)`: fixed notation with six decimal places
(`%f`), rounding to nearest at the sixth place. -/
def toString6 (q : ℚ) : String :=
  let sign := if q < 0 then "-" else ""
  let n : ℤ := cppRound (|q| * 1000000)
  sign ++ toString (n / 1000000) ++ "." ++ padFrac6 (n % 1000000).toNat

/-- Denominator-table scan of the imperial fraction branch of `Format`.
Returns `some (earlyOut, text)` on the first matching denominator: `earlyOut`
marks the feet+inches special case that returns without a unit suffix. -/
def fracScan (cfg : Config) (result : Solution) (normalValue frac : ℚ)
    (normalValueAbsInt : ℤ) : List Nat → Option (Bool × String)
  | [] => none
  | denom :: rest =>
    if IsEpsilonInteger (frac * denom) then
      let whole :=
        if normalValueAbsInt ≠ 0 then
          toString (i64Trunc normalValue)
            ++ (if denom = 12 ∧ result.units.scale = impScaleFoot then
                  UnitName cfg result.units
                else "")
            ++ (if normalValue < 0 then "-" else "+")
        else ""
      if denom = 12 ∧ result.units.scale = impScaleFoot then
        some (true,
          whole ++ toString (i64Trunc (frac * denom))
            ++ UnitName cfg ⟨impScaleInch, .Imperial⟩)
      else
        some (false,
          whole ++ toString (i64Trunc (frac * denom)) ++ "/" ++ toString denom)
    else
      fracScan cfg result normalValue frac normalValueAbsInt rest

/-- `Numeric::Compiler::Format`. -/
def Format (cfg : Config) (result : Solution) : String :=
  let normalValue := result.value / result.units.scale
  let normalValueAbsInt : ℤ := ratFloor (ratAbs normalValue)
  let frac := ratAbs normalValue - (normalValueAbsInt : ℚ)
  if IsEpsilonInteger normalValue then
    toString (cppRound normalValue) ++ UnitName cfg result.units
  else if result.units.type = .Imperial ∧ cfg.imperialFractions then
    match fracScan cfg result normalValue frac normalValueAbsInt gDenominatorTable with
    | some (true, s) => s
    | some (false, s) => s ++ UnitName cfg result.units
    | none => toString6 normalValue ++ UnitName cfg result.units
  else
    toString6 normalValue ++ UnitName cfg result.units

/-! Concrete compiler configurations and derived checks used by the
verification below. -/

/-- A `Compiler` after `SetUnitOut(Metric)`, with the default `'.'` locale. -/
def cfgMetric : Config := ⟨.Metric, true, Char.ofNat 46⟩

/-- A `Compiler` after `SetUnitOut(Generic)`. -/
def cfgGeneric : Config := ⟨.Generic, true, Char.ofNat 46⟩

/-- A `Compiler` after `SetUnitOut(Imperial)`. -/
def cfgImperial : Config := ⟨.Imperial, true, Char.ofNat 46⟩

/-- One format/re-evaluate round trip with no previous solution, comparing
the two values for exact equality. -/
def roundTripExact (cfg : Config) (input : String) : Bool :=
  match Eval cfg input none with
  | .error _ => false
  | .ok s1 =>
    match Eval cfg (Format cfg s1) none with
    | .error _ => false
    | .ok s2 => ratEq s2.value s1.value

/-- The unit names recognized after `SetUnitOut(Metric)`. -/
def metricUnitNames : List String := (mapUnitsList .Metric).map Prod.fst

/-! Exception-aware model of the numeric conversions. The source calls
`std::stod` (numeric.cpp:487) and `std::stoll` (numeric.cpp:540, 563) with no
surrounding try/catch, so a literal outside the target type's range makes the
conversion throw `std::out_of_range`, which escapes `Parse` and `Eval`
untagged (the caller in main.cpp catches only `CompilerError`). -/

/-- Model of a `std::out_of_range` exception and its `what()` text. -/
structure OutOfRange where
  what : String
deriving DecidableEq, Repr

/-- Everything that can propagate out of `Eval`: the tagged `CompilerError`s
it throws itself, or a `std::out_of_range` escaping from the standard
numeric conversions. -/
inductive Thrown
  | compiler (e : CompilerError)
  | range (e : OutOfRange)
deriving DecidableEq, Repr

/-- Discriminator: is this thrown object one of the compiler's tagged
errors? -/
def Thrown.isCompilerError : Thrown → Bool
  | .compiler _ => true
  | .range _ => false

/-- Smallest magnitude at which round-to-nearest `strtod` overflows to
infinity: the midpoint between the largest finite IEEE double and 2^1024. -/
def dblOverflowThreshold : ℚ := 2 ^ 1024 - 2 ^ 970

/-- `LLONG_MAX`, the bound checked by `std::stoll`. -/
def llongMax : Nat := 9223372036854775807

/-- `std::stod` on an accumulated literal, with its out-of-range behaviour:
a value that rounds beyond the largest finite double throws
`std::out_of_range` (platform-dependent ERANGE on extreme underflow is not
modelled). -/
def stodChecked (locale : Char) (cs : List Char) : Except OutOfRange ℚ :=
  let q := stod locale cs
  if dblOverflowThreshold ≤ ratAbs q then .error ⟨("stod")⟩ else .ok q

/-- `std::stoll` on the accumulated prefix digits (always non-negative):
values above `LLONG_MAX` throw `std::out_of_range`. -/
def stollChecked (n : Nat) : Except OutOfRange ℚ :=
  if llongMax < n then .error ⟨("stoll")⟩ else .ok (n : ℚ)

/-- The tokenizer loop with the `std::stod` / `std::stoll` domain checks of
the source: identical to `tokenize` except at the three conversion sites
(numeric.cpp:487, 540, 563), which can throw `std::out_of_range`. -/
def tokenizeEx (cfg : Config) :
    Nat → List Char → Nat → Nat → List Token → Except Thrown (List Token)
  | 0, _, _, _, _ => .error (.compiler ⟨.Parser, "Tokenizer fuel exhausted"⟩)
  | _ + 1, [], _, balance, acc =>
    if balance ≠ 0 then .error (.compiler ⟨.Parser, msgParenNotBalanced⟩)
    else .ok acc
  | fuel + 1, c :: rest, pos, balance, acc =>
    if c = Char.ofNat 0 then
      if balance ≠ 0 then .error (.compiler ⟨.Parser, msgParenNotBalanced⟩)
      else .ok acc
    else if gWhitespaceDigits c then
      tokenizeEx cfg fuel rest (pos + 1) balance acc
    else if gFirstNumericDigits c then
      match rest with
      | d :: rest2 =>
        if c = Char.ofNat 48 ∧ (d = Char.ofNat 120 ∨ d = Char.ofNat 88) then
          match scanHexLiteral [c, d] [] rest2 with
          | .error e => .error (.compiler e)
          | .ok (t, pref, r) =>
            match stollChecked (hexDigitsToNat pref) with
            | .error oor => .error (.range oor)
            | .ok v =>
              let tok : Token := ⟨pos, .Literal_Numeric, String.mk t, v⟩
              tokenizeEx cfg fuel r (pos + ((c :: rest).length - r.length)) balance
                (acc ++ [tok])
        else if c = Char.ofNat 48 ∧ (d = Char.ofNat 98 ∨ d = Char.ofNat 66) then
          match scanBinLiteral [c, d] [] rest2 with
          | .error e => .error (.compiler e)
          | .ok (t, pref, r) =>
            match stollChecked (binDigitsToNat pref) with
            | .error oor => .error (.range oor)
            | .ok v =>
              let tok : Token := ⟨pos, .Literal_Numeric, String.mk t, v⟩
              tokenizeEx cfg fuel r (pos + ((c :: rest).length - r.length)) balance
                (acc ++ [tok])
        else
          match scanNumericLiteral cfg.localeDecimalPoint [c] false rest with
          | .error e => .error (.compiler e)
          | .ok (t, r) =>
            match stodChecked cfg.localeDecimalPoint t with
            | .error oor => .error (.range oor)
            | .ok v =>
              let tok : Token := ⟨pos, .Literal_Numeric, String.mk t, v⟩
              tokenizeEx cfg fuel r (pos + ((c :: rest).length - r.length)) balance
                (acc ++ [tok])
      | [] =>
        match stodChecked cfg.localeDecimalPoint [c] with
        | .error oor => .error (.range oor)
        | .ok v =>
          let tok : Token := ⟨pos, .Literal_Numeric, String.mk [c], v⟩
          tokenizeEx cfg fuel [] (pos + 1) balance (acc ++ [tok])
    else if gOperatorDigits c then
      match scanOperator [] (c :: rest) with
      | .error e => .error (.compiler e)
      | .ok (t, r) =>
        let tok : Token := ⟨pos, .Operator, String.mk t, 0⟩
        tokenizeEx cfg fuel r (pos + ((c :: rest).length - r.length)) balance (acc ++ [tok])
    else if c = Char.ofNat 40 then
      let tok : Token := ⟨pos, .Parenthesis_Open, String.mk [c], 0⟩
      tokenizeEx cfg fuel rest (pos + 1) (balance + 1) (acc ++ [tok])
    else if c = Char.ofNat 41 then
      if balance = 0 then .error (.compiler ⟨.Parser, msgParenNotBalanced⟩)
      else
        let tok : Token := ⟨pos, .Parenthesis_Close, String.mk [c], 0⟩
        tokenizeEx cfg fuel rest (pos + 1) (balance - 1) (acc ++ [tok])
    else if gUnitDigits c then
      let (t, r) := scanUnitOrSymbol [c] rest
      let text := String.mk t
      let tok : Token :=
        if mapUnitsContains cfg.desiredUnitType text then
          ⟨pos, .Unit, text, (mapUnitsGet cfg.desiredUnitType text).scale⟩
        else
          ⟨pos, .Symbol, text, 0⟩
      tokenizeEx cfg fuel r (pos + ((c :: rest).length - r.length)) balance (acc ++ [tok])
    else
      .error (.compiler ⟨.Parser, "Unknown character " ++ quoteChar c⟩)

/-- `Numeric::Compiler::Parse` with the conversion exceptions escaping
untagged. -/
def ParseEx (cfg : Config) (sInput : String) : Except Thrown (List Token) :=
  if sInput = "" then .error (.compiler ⟨.Parser, "No input."⟩)
  else tokenizeEx cfg (sInput.toList.length + 1) sInput.toList 0 0 []

/-- `Numeric::Compiler::Eval` with the conversion exceptions escaping
untagged: `Solve` itself performs no standard numeric conversions, so its
failures are all tagged `CompilerError`s. -/
def EvalEx (cfg : Config) (sInput : String) (pPrevSolution : Option Solution) :
    Except Thrown Solution :=
  match ParseEx cfg sInput with
  | .error t => .error t
  | .ok vTokens =>
    match Solve cfg vTokens pPrevSolution with
    | .error e => .error (.compiler e)
    | .ok sol => .ok sol

/-- Agreement between an exception-aware outcome and a `CompilerError`-only
outcome: they coincide on success and on tagged errors, and any escaping
out-of-range object names one of the two conversions. -/
def exMatches (rex : Except Thrown (List Token))
    (rc : Except CompilerError (List Token)) : Prop :=
  (∀ ts, rex = .ok ts → rc = .ok ts) ∧
  (∀ e, rex = .error (.compiler e) → rc = .error e) ∧
  (∀ r, rex = .error (.range r) → r.what = "stod" ∨ r.what = "stoll")

/-! Verification of the specified behaviour. -/

/-- C1 (amended): evaluating "5m + 3ft" with the output system set to Metric
yields a `Solution` whose canonical value is exactly 5*1.0 + 3*0.3048 =
5.9144 metres; `Format` renders it through the fixed six-decimal notation of
`std::to_string`, producing "5.914400m". -/
theorem eval_5m_plus_3ft_metric :
    Eval cfgMetric ("5m + 3ft") none = .ok ⟨5.9144, ⟨1, .Metric⟩⟩ ∧
    Format cfgMetric ⟨5.9144, ⟨1, .Metric⟩⟩ = "5.914400m" :=
  ⟨by with_unfolding_all rfl, by with_unfolding_all rfl⟩

/-- C1 counterexample: the formatted text of the "5m + 3ft" result is
"5.914400m" (six decimal places), not the claimed "5.9144m". -/
theorem eval_5m_plus_3ft_format_differs :
    Eval cfgMetric ("5m + 3ft") none = .ok ⟨5.9144, ⟨1, .Metric⟩⟩ ∧
    Format cfgMetric ⟨5.9144, ⟨1, .Metric⟩⟩ = "5.914400m" ∧
    ("5.914400m" : String) ≠ "5.9144m" :=
  ⟨by with_unfolding_all rfl, by with_unfolding_all rfl,
    of_decide_eq_true (by with_unfolding_all rfl)⟩

/-- C2 (amended): `Eval("(1+2")` raises the Parse-stage balance error, and
`Eval("1+2)")` raises the same Parse-stage balance error (the tokenizer's
`Parenthesis_Close` state throws when the running balance is zero); the
Solve-stage "Unexpected close parenthesis" arises only when `Solve` is handed
an unmatched close-parenthesis token directly. -/
theorem paren_balance_errors :
    Eval cfgMetric ("(1+2") none = .error ⟨.Parser, msgParenNotBalanced⟩ ∧
    Eval cfgMetric ("1+2)") none = .error ⟨.Parser, msgParenNotBalanced⟩ ∧
    Solve cfgMetric [⟨0, .Parenthesis_Close, (")"), 0⟩] none =
      .error ⟨.Solver, "Unexpected close parenthesis"⟩ :=
  ⟨by with_unfolding_all rfl, by with_unfolding_all rfl, by with_unfolding_all rfl⟩

/-- C2 counterexample: `Eval("1+2)")` fails in the Parse stage with the
parenthesis-balance message, not with a Solve-stage "unexpected close
parenthesis" error as claimed. -/
theorem close_paren_error_is_parse_stage :
    Eval cfgMetric ("1+2)") none = .error ⟨.Parser, msgParenNotBalanced⟩ ∧
    (⟨.Parser, msgParenNotBalanced⟩ : CompilerError).stage ≠ .Solver ∧
    msgParenNotBalanced ≠ "unexpected close parenthesis" :=
  ⟨by with_unfolding_all rfl, of_decide_eq_true (by with_unfolding_all rfl),
    of_decide_eq_true (by with_unfolding_all rfl)⟩

/-- C5 (amended): `SetUnitOut(Generic)` takes the non-Imperial branch, so the
unit tables after it coincide with the Metric-mode tables; unit-alphabet
words such as "mm" and "ft" therefore tokenize as `Unit` tokens even in
Generic mode. The implicit default unit does have scale 1.0. -/
theorem generic_mode_unit_tables :
    (∀ s, mapUnits .Generic s = mapUnits .Metric s) ∧
    DefaultUnit cfgGeneric = ⟨1, .Generic⟩ ∧
    Parse cfgGeneric ("mm") = .ok [⟨0, .Unit, ("mm"), 0.001⟩] ∧
    Parse cfgGeneric ("ft") = .ok [⟨0, .Unit, ("ft"), metricScaleFoot⟩] :=
  ⟨fun _ => rfl, by with_unfolding_all rfl, by with_unfolding_all rfl,
    by with_unfolding_all rfl⟩

/-- C5 counterexample: with the output system set to Generic, tokenizing the
unit-alphabet word "mm" yields a `Unit` token (scale 0.001), not a `Symbol`
token, so Generic mode does define explicit unit names. -/
theorem generic_mode_tokenizes_mm_as_unit :
    Parse cfgGeneric ("mm") = .ok [⟨0, TokenType.Unit, ("mm"), 0.001⟩] ∧
    TokenType.Unit ≠ TokenType.Symbol :=
  ⟨by with_unfolding_all rfl, of_decide_eq_true (by with_unfolding_all rfl)⟩

/-- C6 (amended): tokenizing "0x1F" yields the single numeric literal 31 and
"0b101" yields 5; for "0z9" prefix detection falls back to the decimal
literal "0", but the following character `z` is not in the unit/symbol
alphabet, so `Parse` raises "Unknown character 'z'" instead of producing a
symbol token. -/
theorem prefixed_literal_tokens :
    Parse cfgMetric ("0x1F") = .ok [⟨0, .Literal_Numeric, ("0x1F"), 31⟩] ∧
    Parse cfgMetric ("0b101") = .ok [⟨0, .Literal_Numeric, ("0b101"), 5⟩] ∧
    Parse cfgMetric ("0z9") =
      .error ⟨.Parser, "Unknown character " ++ quoteChar (Char.ofNat 122)⟩ :=
  ⟨by with_unfolding_all rfl, by with_unfolding_all rfl, by with_unfolding_all rfl⟩

/-- C6 counterexample: tokenizing "0z9" is an error ("Unknown character
'z'"), contradicting the claim that it tokenizes without error. -/
theorem tokenize_0z9_is_error :
    Parse cfgMetric ("0z9") =
      .error ⟨.Parser, "Unknown character " ++ quoteChar (Char.ofNat 122)⟩ :=
  by with_unfolding_all rfl

/-- C10: parsing the empty string fails with the Parse-stage error "No
input." before the tokenizer runs, and on every non-empty input `Parse` is
exactly the tokenizer loop applied to the input characters. -/
theorem parse_empty_guard (cfg : Config) (s : String) :
    (s = "" → Parse cfg s = .error ⟨.Parser, ("No input.")⟩) ∧
    (s ≠ "" → Parse cfg s = tokenize cfg (s.toList.length + 1) s.toList 0 0 []) := by
  constructor
  · intro h
    subst h
    rfl
  · intro h
    simp only [Parse, if_neg h]

/-- Witness for C10 at the empty string and at "x". -/
theorem parse_empty_guard_check :
    Parse cfgMetric ("") = .error ⟨.Parser, ("No input.")⟩ ∧
    Parse cfgMetric ("x") =
      tokenize cfgMetric (("x" : String).toList.length + 1) ("x" : String).toList 0 0 [] :=
  ⟨(parse_empty_guard cfgMetric ("")).1 rfl,
    (parse_empty_guard cfgMetric ("x")).2 (of_decide_eq_true (by with_unfolding_all rfl))⟩

/-- C3: for every evaluated division (postfix `a b /`, so `b` is on top of
the solve stack), the result magnitude is the quotient of the scale-normalized
operands; with a non-Generic divisor unit the result carries the divisor's
unit and is rescaled by its factor, otherwise it carries the active output
system at scale 1.0. -/
theorem division_unit_propagation (cfg : Config) (a b : Solution) :
    (b.units.type = .Generic →
      applyOp cfg ("/") (opLookup ("/")) [b, a] =
        ⟨a.value / a.units.scale / (b.value / b.units.scale),
          ⟨1, cfg.desiredUnitType⟩⟩) ∧
    (b.units.type ≠ .Generic →
      applyOp cfg ("/") (opLookup ("/")) [b, a] =
        ⟨a.value / a.units.scale / (b.value / b.units.scale) * b.units.scale,
          b.units⟩) := by
  have hop : opLookup ("/") = ⟨3, 2⟩ := rfl
  rw [hop]
  constructor
  · intro h
    simp [applyOp, h]
  · intro h
    simp [applyOp, h]

/-- Witness for C3 with a Generic and a Metric divisor. -/
theorem division_unit_propagation_check :
    applyOp cfgMetric ("/") (opLookup ("/")) [⟨3, ⟨2, .Metric⟩⟩, ⟨6, ⟨1, .Generic⟩⟩] =
      ⟨(6 : ℚ) / 1 / (3 / 2) * 2, ⟨2, .Metric⟩⟩ ∧
    applyOp cfgMetric ("/") (opLookup ("/")) [⟨3, ⟨2, .Generic⟩⟩, ⟨6, ⟨1, .Generic⟩⟩] =
      ⟨(6 : ℚ) / 1 / (3 / 2), ⟨1, .Metric⟩⟩ :=
  ⟨(division_unit_propagation cfgMetric ⟨6, ⟨1, .Generic⟩⟩ ⟨3, ⟨2, .Metric⟩⟩).2
      (of_decide_eq_true (by with_unfolding_all rfl)),
    (division_unit_propagation cfgMetric ⟨6, ⟨1, .Generic⟩⟩ ⟨3, ⟨2, .Generic⟩⟩).1
      (of_decide_eq_true (by with_unfolding_all rfl))⟩

/-- C4: in the subtraction branch with both operands carrying non-Generic
units (postfix `a b -`, `b` on top), the source computes
`mem[1].value + mem[0].value`, i.e. a sum of the raw values, not a
difference. -/
theorem subtraction_with_units_adds (cfg : Config) (a b : Solution)
    (ha : a.units.type ≠ .Generic) (hb : b.units.type ≠ .Generic) :
    (applyOp cfg ("-") (opLookup ("-")) [b, a]).value = a.value + b.value := by
  have hop : opLookup ("-") = ⟨1, 2⟩ := rfl
  rw [hop]
  simp [applyOp, ha, hb]

/-- Witness for C4: subtracting 2m from 1m produces the raw value 3. -/
theorem subtraction_with_units_adds_check :
    (applyOp cfgMetric ("-") (opLookup ("-"))
        [⟨2, ⟨1, .Metric⟩⟩, ⟨1, ⟨1, .Metric⟩⟩]).value = 1 + 2 :=
  subtraction_with_units_adds cfgMetric ⟨1, ⟨1, .Metric⟩⟩ ⟨2, ⟨1, .Metric⟩⟩
    (of_decide_eq_true (by with_unfolding_all rfl))
    (of_decide_eq_true (by with_unfolding_all rfl))

/-- Every `CompilerError` renders a nonempty message: the constructor always
prepends a stage tag to the caller's text. -/
theorem CompilerError.what_ne_empty (e : CompilerError) : e.what ≠ "" := by
  obtain ⟨st, m⟩ := e
  cases st <;>
    · intro hc
      have hlen := congrArg String.length hc
      simp [CompilerError.what, String.length_append] at hlen
      exact absurd hlen.1 (by decide)

/-- A `CompilerError`'s stage is one of the two parser stages. -/
theorem CompilerError.stage_dichotomy (e : CompilerError) :
    e.stage = .Parser ∨ e.stage = .Solver := by
  cases h : e.stage
  · exact .inl rfl
  · exact .inr rfl

/-- Identical tagged errors agree. -/
theorem exMatches_error (e : CompilerError) :
    exMatches (.error (.compiler e)) (.error e) := by
  refine ⟨?_, ?_, ?_⟩
  · intro ts h
    cases h
  · intro e2 h
    injection h with h2
    injection h2 with h3
    rw [h3]
  · intro r h
    injection h with h2
    cases h2

/-- Identical successes agree. -/
theorem exMatches_ok (ts : List Token) : exMatches (.ok ts) (.ok ts) := by
  refine ⟨?_, ?_, ?_⟩
  · intro ts2 h
    injection h with h2
    rw [h2]
  · intro e h
    cases h
  · intro r h
    cases h

/-- An out-of-range outcome matches anything once its source is named. -/
theorem exMatches_range (r : OutOfRange) (rc : Except CompilerError (List Token))
    (hw : r.what = "stod" ∨ r.what = "stoll") : exMatches (.error (.range r)) rc := by
  refine ⟨?_, ?_, ?_⟩
  · intro ts h
    cases h
  · intro e h
    injection h with h2
    cases h2
  · intro r2 h
    injection h with h2
    injection h2 with h3
    rw [← h3]
    exact hw

/-- The only out-of-range object `stodChecked` throws names `stod`. -/
theorem stodChecked_error_what (locale : Char) (cs : List Char) (r : OutOfRange)
    (h : stodChecked locale cs = .error r) : r.what = "stod" := by
  simp only [stodChecked] at h
  split_ifs at h
  injection h with h2
  rw [← h2]

/-- A successful `stodChecked` is exactly `stod`. -/
theorem stodChecked_ok (locale : Char) (cs : List Char) (v : ℚ)
    (h : stodChecked locale cs = .ok v) : v = stod locale cs := by
  simp only [stodChecked] at h
  split_ifs at h
  injection h with h2
  exact h2.symm

/-- The only out-of-range object `stollChecked` throws names `stoll`. -/
theorem stollChecked_error_what (n : Nat) (r : OutOfRange)
    (h : stollChecked n = .error r) : r.what = "stoll" := by
  simp only [stollChecked] at h
  split_ifs at h
  injection h with h2
  rw [← h2]

/-- A successful `stollChecked` is the exact integer value. -/
theorem stollChecked_ok (n : Nat) (v : ℚ) (h : stollChecked n = .ok v) :
    v = (n : ℚ) := by
  simp only [stollChecked] at h
  split_ifs at h
  injection h with h2
  exact h2.symm

set_option maxHeartbeats 3200000 in
/-- The exception-aware tokenizer agrees with `tokenize` on success and on
every tagged error, and an escaping out-of-range object names one of the
two standard conversions. -/
theorem tokenizeEx_matches (cfg : Config) :
    ∀ (fuel : Nat) (cs : List Char) (pos balance : Nat) (acc : List Token),
      exMatches (tokenizeEx cfg fuel cs pos balance acc)
        (tokenize cfg fuel cs pos balance acc) := by
  intro fuel
  induction fuel with
  | zero =>
    intro cs pos balance acc
    rw [tokenizeEx.eq_def, tokenize.eq_def]
    simp only
    exact exMatches_error _
  | succ n ih =>
    intro cs pos balance acc
    cases cs with
    | nil =>
      rw [tokenizeEx.eq_def, tokenize.eq_def]
      simp only
      split_ifs
      · exact exMatches_error _
      · exact exMatches_ok _
    | cons c rest =>
      rw [tokenizeEx.eq_def, tokenize.eq_def]
      simp only
      split_ifs
      · -- NUL with unbalanced parenthesis
        exact exMatches_error _
      · -- NUL, balanced
        exact exMatches_ok _
      · -- whitespace
        exact ih _ _ _ _
      · -- numeric literal
        cases rest with
        | nil =>
          simp only
          cases hchk : stodChecked cfg.localeDecimalPoint [c] with
          | error oor =>
            exact exMatches_range oor _ (Or.inl (stodChecked_error_what _ _ _ hchk))
          | ok v =>
            rw [stodChecked_ok _ _ _ hchk]
            exact ih _ _ _ _
        | cons d rest2 =>
          simp only
          split_ifs
          · -- hexadecimal
            cases hscan : scanHexLiteral [c, d] [] rest2 with
            | error e =>
              exact exMatches_error e
            | ok tri =>
              obtain ⟨t, pref, r⟩ := tri
              simp only
              cases hchk : stollChecked (hexDigitsToNat pref) with
              | error oor =>
                exact exMatches_range oor _ (Or.inr (stollChecked_error_what _ _ hchk))
              | ok v =>
                rw [stollChecked_ok _ _ hchk]
                exact ih _ _ _ _
          · -- binary
            cases hscan : scanBinLiteral [c, d] [] rest2 with
            | error e =>
              exact exMatches_error e
            | ok tri =>
              obtain ⟨t, pref, r⟩ := tri
              simp only
              cases hchk : stollChecked (binDigitsToNat pref) with
              | error oor =>
                exact exMatches_range oor _ (Or.inr (stollChecked_error_what _ _ hchk))
              | ok v =>
                rw [stollChecked_ok _ _ hchk]
                exact ih _ _ _ _
          · -- plain decimal
            cases hscan : scanNumericLiteral cfg.localeDecimalPoint [c] false (d :: rest2) with
            | error e =>
              exact exMatches_error e
            | ok pr =>
              obtain ⟨t, r⟩ := pr
              simp only
              cases hchk : stodChecked cfg.localeDecimalPoint t with
              | error oor =>
                exact exMatches_range oor _ (Or.inl (stodChecked_error_what _ _ _ hchk))
              | ok v =>
                rw [stodChecked_ok _ _ _ hchk]
                exact ih _ _ _ _
      · -- operator
        cases hscan : scanOperator [] (c :: rest) with
        | error e =>
          exact exMatches_error e
        | ok pr =>
          obtain ⟨t, r⟩ := pr
          exact ih _ _ _ _
      · -- open parenthesis
        exact ih _ _ _ _
      · -- close parenthesis at balance zero
        exact exMatches_error _
      · -- close parenthesis
        exact ih _ _ _ _
      · -- recognized unit name
        exact ih _ _ _ _
      · -- symbol
        exact ih _ _ _ _
      · -- unknown character
        exact exMatches_error _

/-- `ParseEx` agrees with `Parse` except for the untagged out-of-range
path. -/
theorem ParseEx_matches (cfg : Config) (s : String) :
    exMatches (ParseEx cfg s) (Parse cfg s) := by
  unfold ParseEx Parse
  split_ifs
  · exact exMatches_error _
  · exact tokenizeEx_matches cfg _ _ _ _ _

/-- C8 (amended): every `Eval` outcome is a `Solution`, a single tagged
`CompilerError` (Parser or Solver stage, nonempty rendered message, and
exactly the error of the `CompilerError`-only pipeline), or an untagged
`std::out_of_range` escaping from the `std::stod`/`std::stoll` literal
conversions, which no caller catches. On a tagged failure no partial result
is produced, and the model is a pure function of the caller's previous
`Solution` (a `const Solution*` in the source), which is therefore left
unchanged. -/
theorem evalEx_failures_classified (cfg : Config) (s : String) (prev : Option Solution) :
    (∃ sol, EvalEx cfg s prev = .ok sol ∧ Eval cfg s prev = .ok sol) ∨
    (∃ e, EvalEx cfg s prev = .error (.compiler e) ∧
      (e.stage = .Parser ∨ e.stage = .Solver) ∧ e.what ≠ "" ∧
      Eval cfg s prev = .error e) ∨
    (∃ r, EvalEx cfg s prev = .error (.range r) ∧
      (r.what = "stod" ∨ r.what = "stoll")) := by
  obtain ⟨hok, herr, hrange⟩ := ParseEx_matches cfg s
  cases hp : ParseEx cfg s with
  | error t =>
    have hev : EvalEx cfg s prev = .error t := by
      simp only [EvalEx, hp]
    cases t with
    | compiler e =>
      refine .inr (.inl ⟨e, hev, e.stage_dichotomy, e.what_ne_empty, ?_⟩)
      have hpc : Parse cfg s = .error e := herr e hp
      simp only [Eval, hpc]
    | range r =>
      exact .inr (.inr ⟨r, hev, hrange r hp⟩)
  | ok ts =>
    have hpc : Parse cfg s = .ok ts := hok ts hp
    cases hs : Solve cfg ts prev with
    | error e =>
      refine .inr (.inl ⟨e, ?_, e.stage_dichotomy, e.what_ne_empty, ?_⟩)
      · simp only [EvalEx, hp, hs]
      · simp only [Eval, hpc, hs]
    | ok sol =>
      refine .inl ⟨sol, ?_, ?_⟩
      · simp only [EvalEx, hp, hs]
      · simp only [Eval, hpc, hs]

set_option maxRecDepth 4000 in
/-- C8 counterexample: on the hex literal 0xFFFFFFFFFFFFFFFFF (value 2^68-1,
above LLONG_MAX) `Eval` fails with an untagged `std::out_of_range` from
`std::stoll` — not with a tagged Parse/Solve-stage `CompilerError` — and the
`CompilerError`-only pipeline cannot even observe this failure (it returns a
`Solution`). -/
theorem eval_out_of_range_untagged :
    EvalEx cfgMetric ("0xFFFFFFFFFFFFFFFFF") none = .error (.range ⟨("stoll")⟩) ∧
    (Thrown.range ⟨("stoll")⟩).isCompilerError = false ∧
    Eval cfgMetric ("0xFFFFFFFFFFFFFFFFF") none =
      .ok ⟨295147905179352825855, ⟨1000000, .Metric⟩⟩ :=
  ⟨by with_unfolding_all rfl, rfl, by with_unfolding_all rfl⟩

set_option maxRecDepth 4000 in
/-- C7 counterexample: the formatter keeps only six decimal places, so the
format/re-evaluate round trip of "0.1234567891m" loses 1e-10 of the value,
far more than the 1e-14 epsilon. -/
theorem roundtrip_precision_loss :
    Eval cfgMetric ("0.1234567891m") none = .ok ⟨0.1234567891, ⟨0.001, .Metric⟩⟩ ∧
    Format cfgMetric ⟨0.1234567891, ⟨0.001, .Metric⟩⟩ = "123.456789mm" ∧
    Eval cfgMetric ("123.456789mm") none = .ok ⟨0.123456789, ⟨0.001, .Metric⟩⟩ ∧
    ¬ ratAbs ((0.123456789 : ℚ) - 0.1234567891) ≤ epsilon :=
  ⟨by with_unfolding_all rfl, by with_unfolding_all rfl, by with_unfolding_all rfl,
    of_decide_eq_true (by with_unfolding_all rfl)⟩

/-- Reflexivity of the boolean rational equality. -/
theorem ratEq_self (a : ℚ) : ratEq a a = true := by
  simp [ratEq]

/-- Splitting a round-trip check into its pipeline steps keeps each
equation's evaluation shallow. -/
theorem roundTripExact_of_steps (cfg : Config) (input fmt : String) (s1 s2 : Solution)
    (h1 : Eval cfg input none = .ok s1)
    (h2 : Format cfg s1 = fmt)
    (h3 : Eval cfg fmt none = .ok s2)
    (h4 : s2.value = s1.value) :
    roundTripExact cfg input = true := by
  unfold roundTripExact
  simp only [h1, h2, h3, h4, ratEq_self]

set_option maxRecDepth 4000 in
/-- Round-trip check for one Metric unit name. -/
theorem roundTrip_five_case_0 : roundTripExact cfgMetric ("5" ++ ("mm")) = true :=
  roundTripExact_of_steps cfgMetric _ ("5mm") ⟨0.005, ⟨0.001, .Metric⟩⟩ ⟨0.005, ⟨0.001, .Metric⟩⟩
    (by with_unfolding_all rfl) (by with_unfolding_all rfl)
    (by with_unfolding_all rfl) rfl

set_option maxRecDepth 4000 in
/-- Round-trip check for one Metric unit name. -/
theorem roundTrip_five_case_1 : roundTripExact cfgMetric ("5" ++ ("cm")) = true :=
  roundTripExact_of_steps cfgMetric _ ("50mm") ⟨0.05, ⟨0.001, .Metric⟩⟩ ⟨0.05, ⟨0.001, .Metric⟩⟩
    (by with_unfolding_all rfl) (by with_unfolding_all rfl)
    (by with_unfolding_all rfl) rfl

set_option maxRecDepth 4000 in
/-- Round-trip check for one Metric unit name. -/
theorem roundTrip_five_case_2 : roundTripExact cfgMetric ("5" ++ ("m")) = true :=
  roundTripExact_of_steps cfgMetric _ ("5m") ⟨5, ⟨1, .Metric⟩⟩ ⟨5, ⟨1, .Metric⟩⟩
    (by with_unfolding_all rfl) (by with_unfolding_all rfl)
    (by with_unfolding_all rfl) rfl

set_option maxRecDepth 4000 in
/-- Round-trip check for one Metric unit name. -/
theorem roundTrip_five_case_3 : roundTripExact cfgMetric ("5" ++ ("Km")) = true :=
  roundTripExact_of_steps cfgMetric _ ("5Km") ⟨5000, ⟨1000, .Metric⟩⟩ ⟨5000, ⟨1000, .Metric⟩⟩
    (by with_unfolding_all rfl) (by with_unfolding_all rfl)
    (by with_unfolding_all rfl) rfl

set_option maxRecDepth 4000 in
/-- Round-trip check for one Metric unit name. -/
theorem roundTrip_five_case_4 : roundTripExact cfgMetric ("5" ++ ("km")) = true :=
  roundTripExact_of_steps cfgMetric _ ("5Km") ⟨5000, ⟨1000, .Metric⟩⟩ ⟨5000, ⟨1000, .Metric⟩⟩
    (by with_unfolding_all rfl) (by with_unfolding_all rfl)
    (by with_unfolding_all rfl) rfl

set_option maxRecDepth 4000 in
/-- Round-trip check for one Metric unit name. -/
theorem roundTrip_five_case_5 : roundTripExact cfgMetric ("5" ++ ("Mm")) = true :=
  roundTripExact_of_steps cfgMetric _ ("5Mm") ⟨5000000, ⟨1000000, .Metric⟩⟩ ⟨5000000, ⟨1000000, .Metric⟩⟩
    (by with_unfolding_all rfl) (by with_unfolding_all rfl)
    (by with_unfolding_all rfl) rfl

set_option maxRecDepth 4000 in
/-- Round-trip check for one Metric unit name. -/
theorem roundTrip_five_case_6 : roundTripExact cfgMetric ("5" ++ ("in")) = true :=
  roundTripExact_of_steps cfgMetric _ ("127mm") ⟨0.127, ⟨0.001, .Metric⟩⟩ ⟨0.127, ⟨0.001, .Metric⟩⟩
    (by with_unfolding_all rfl) (by with_unfolding_all rfl)
    (by with_unfolding_all rfl) rfl

set_option maxRecDepth 4000 in
/-- Round-trip check for one Metric unit name. -/
theorem roundTrip_five_case_7 : roundTripExact cfgMetric ("5" ++ ("inch")) = true :=
  roundTripExact_of_steps cfgMetric _ ("127mm") ⟨0.127, ⟨0.001, .Metric⟩⟩ ⟨0.127, ⟨0.001, .Metric⟩⟩
    (by with_unfolding_all rfl) (by with_unfolding_all rfl)
    (by with_unfolding_all rfl) rfl

set_option maxRecDepth 4000 in
/-- Round-trip check for one Metric unit name. -/
theorem roundTrip_five_case_8 : roundTripExact cfgMetric ("5" ++ ("inches")) = true :=
  roundTripExact_of_steps cfgMetric _ ("127mm") ⟨0.127, ⟨0.001, .Metric⟩⟩ ⟨0.127, ⟨0.001, .Metric⟩⟩
    (by with_unfolding_all rfl) (by with_unfolding_all rfl)
    (by with_unfolding_all rfl) rfl

set_option maxRecDepth 4000 in
/-- Round-trip check for one Metric unit name. -/
theorem roundTrip_five_case_9 : roundTripExact cfgMetric ("5" ++ ("\"")) = true :=
  roundTripExact_of_steps cfgMetric _ ("127mm") ⟨0.127, ⟨0.001, .Metric⟩⟩ ⟨0.127, ⟨0.001, .Metric⟩⟩
    (by with_unfolding_all rfl) (by with_unfolding_all rfl)
    (by with_unfolding_all rfl) rfl

set_option maxRecDepth 4000 in
/-- Round-trip check for one Metric unit name. -/
theorem roundTrip_five_case_10 : roundTripExact cfgMetric ("5" ++ ("ft")) = true :=
  roundTripExact_of_steps cfgMetric _ ("1.524000m") ⟨1.524, ⟨1, .Metric⟩⟩ ⟨1.524, ⟨1, .Metric⟩⟩
    (by with_unfolding_all rfl) (by with_unfolding_all rfl)
    (by with_unfolding_all rfl) rfl

set_option maxRecDepth 4000 in
/-- Round-trip check for one Metric unit name. -/
theorem roundTrip_five_case_11 : roundTripExact cfgMetric ("5" ++ ("foot")) = true :=
  roundTripExact_of_steps cfgMetric _ ("1.524000m") ⟨1.524, ⟨1, .Metric⟩⟩ ⟨1.524, ⟨1, .Metric⟩⟩
    (by with_unfolding_all rfl) (by with_unfolding_all rfl)
    (by with_unfolding_all rfl) rfl

set_option maxRecDepth 4000 in
/-- Round-trip check for one Metric unit name. -/
theorem roundTrip_five_case_12 : roundTripExact cfgMetric ("5" ++ ("feet")) = true :=
  roundTripExact_of_steps cfgMetric _ ("1.524000m") ⟨1.524, ⟨1, .Metric⟩⟩ ⟨1.524, ⟨1, .Metric⟩⟩
    (by with_unfolding_all rfl) (by with_unfolding_all rfl)
    (by with_unfolding_all rfl) rfl

set_option maxRecDepth 4000 in
/-- Round-trip check for one Metric unit name. -/
theorem roundTrip_five_case_13 : roundTripExact cfgMetric ("5" ++ footMarkStr) = true :=
  roundTripExact_of_steps cfgMetric _ ("1.524000m") ⟨1.524, ⟨1, .Metric⟩⟩ ⟨1.524, ⟨1, .Metric⟩⟩
    (by with_unfolding_all rfl) (by with_unfolding_all rfl)
    (by with_unfolding_all rfl) rfl

set_option maxRecDepth 4000 in
/-- Round-trip check for one Metric unit name. -/
theorem roundTrip_five_case_14 : roundTripExact cfgMetric ("5" ++ ("yd")) = true :=
  roundTripExact_of_steps cfgMetric _ ("4.572000m") ⟨4.572, ⟨1, .Metric⟩⟩ ⟨4.572, ⟨1, .Metric⟩⟩
    (by with_unfolding_all rfl) (by with_unfolding_all rfl)
    (by with_unfolding_all rfl) rfl

set_option maxRecDepth 4000 in
/-- Round-trip check for one Metric unit name. -/
theorem roundTrip_five_case_15 : roundTripExact cfgMetric ("5" ++ ("yard")) = true :=
  roundTripExact_of_steps cfgMetric _ ("4.572000m") ⟨4.572, ⟨1, .Metric⟩⟩ ⟨4.572, ⟨1, .Metric⟩⟩
    (by with_unfolding_all rfl) (by with_unfolding_all rfl)
    (by with_unfolding_all rfl) rfl

set_option maxRecDepth 4000 in
/-- Round-trip check for one Metric unit name. -/
theorem roundTrip_five_case_16 : roundTripExact cfgMetric ("5" ++ ("yds")) = true :=
  roundTripExact_of_steps cfgMetric _ ("4.572000m") ⟨4.572, ⟨1, .Metric⟩⟩ ⟨4.572, ⟨1, .Metric⟩⟩
    (by with_unfolding_all rfl) (by with_unfolding_all rfl)
    (by with_unfolding_all rfl) rfl

set_option maxRecDepth 4000 in
/-- Round-trip check for one Metric unit name. -/
theorem roundTrip_five_case_17 : roundTripExact cfgMetric ("5" ++ ("yards")) = true :=
  roundTripExact_of_steps cfgMetric _ ("4.572000m") ⟨4.572, ⟨1, .Metric⟩⟩ ⟨4.572, ⟨1, .Metric⟩⟩
    (by with_unfolding_all rfl) (by with_unfolding_all rfl)
    (by with_unfolding_all rfl) rfl

set_option maxRecDepth 4000 in
/-- Round-trip check for one Metric unit name. -/
theorem roundTrip_five_case_18 : roundTripExact cfgMetric ("5" ++ ("mi")) = true :=
  roundTripExact_of_steps cfgMetric _ ("8.046720Km") ⟨8046.72, ⟨1000, .Metric⟩⟩ ⟨8046.72, ⟨1000, .Metric⟩⟩
    (by with_unfolding_all rfl) (by with_unfolding_all rfl)
    (by with_unfolding_all rfl) rfl

set_option maxRecDepth 4000 in
/-- Round-trip check for one Metric unit name. -/
theorem roundTrip_five_case_19 : roundTripExact cfgMetric ("5" ++ ("mile")) = true :=
  roundTripExact_of_steps cfgMetric _ ("8.046720Km") ⟨8046.72, ⟨1000, .Metric⟩⟩ ⟨8046.72, ⟨1000, .Metric⟩⟩
    (by with_unfolding_all rfl) (by with_unfolding_all rfl)
    (by with_unfolding_all rfl) rfl

set_option maxRecDepth 4000 in
/-- Round-trip check for one Metric unit name. -/
theorem roundTrip_five_case_20 : roundTripExact cfgMetric ("5" ++ ("miles")) = true :=
  roundTripExact_of_steps cfgMetric _ ("8.046720Km") ⟨8046.72, ⟨1000, .Metric⟩⟩ ⟨8046.72, ⟨1000, .Metric⟩⟩
    (by with_unfolding_all rfl) (by with_unfolding_all rfl)
    (by with_unfolding_all rfl) rfl

/-- C7 (amended): the general format/re-evaluate round trip does not preserve
the value within epsilon (the formatter prints six decimal places); it does
hold — exactly — for the literal "5" combined with every unit name the
Metric output system recognizes. -/
theorem roundtrip_five_metric_units :
    ∀ u ∈ metricUnitNames, roundTripExact cfgMetric ("5" ++ u) = true := by
  have hnames : metricUnitNames =
      [("mm"), ("cm"), ("m"), ("Km"), ("km"), ("Mm"), ("in"), ("inch"), ("inches"),
        ("\""), ("ft"), ("foot"), ("feet"), footMarkStr, ("yd"), ("yard"), ("yds"),
        ("yards"), ("mi"), ("mile"), ("miles")] := by with_unfolding_all rfl
  intro u hu
  rw [hnames] at hu
  simp only [List.mem_cons, List.not_mem_nil, or_false] at hu
  rcases hu with rfl|rfl|rfl|rfl|rfl|rfl|rfl|rfl|rfl|rfl|rfl|rfl|rfl|rfl|rfl|rfl|rfl|rfl|rfl|rfl|rfl
  exacts [roundTrip_five_case_0, roundTrip_five_case_1, roundTrip_five_case_2, roundTrip_five_case_3, roundTrip_five_case_4, roundTrip_five_case_5, roundTrip_five_case_6, roundTrip_five_case_7, roundTrip_five_case_8, roundTrip_five_case_9, roundTrip_five_case_10, roundTrip_five_case_11, roundTrip_five_case_12, roundTrip_five_case_13, roundTrip_five_case_14, roundTrip_five_case_15, roundTrip_five_case_16, roundTrip_five_case_17, roundTrip_five_case_18, roundTrip_five_case_19, roundTrip_five_case_20]

/-- Witness for C7 at the unit name "m". -/
theorem roundtrip_five_metric_units_check :
    ("m" : String) ∈ metricUnitNames ∧ roundTripExact cfgMetric ("5" ++ "m") = true :=
  ⟨of_decide_eq_true (by with_unfolding_all rfl),
    roundtrip_five_metric_units ("m") (of_decide_eq_true (by with_unfolding_all rfl))⟩

/-- A successful association-list lookup returns a stored value. -/
theorem lookup_scale_pos {l : List (String × Unit)} (hl : ∀ p ∈ l, 0 < p.2.scale)
    {k : String} {v : Unit} (h : l.lookup k = some v) : 0 < v.scale := by
  induction l with
  | nil => simp [List.lookup] at h
  | cons p t ih =>
    obtain ⟨k1, v1⟩ := p
    rw [List.lookup] at h
    by_cases hk : (k == k1) = true
    · rw [hk] at h
      simp only at h
      injection h with hv
      subst hv
      exact hl (k1, v1) (by simp)
    · rw [Bool.not_eq_true] at hk
      rw [hk] at h
      simp only at h
      exact ih (fun q hq => hl q (List.mem_cons_of_mem _ hq)) h

/-- Every unit stored by `SetUnitOut` has a strictly positive scale. -/
theorem mapUnits_scale_pos (d : UnitType) (name : String) (u : Unit)
    (h : mapUnits d name = some u) : 0 < u.scale := by
  refine lookup_scale_pos ?_ h
  cases d <;> exact of_decide_eq_true (by with_unfolding_all rfl)

/-- `_mapUnits[name]` (with default construction on a miss) has a strictly
positive scale. -/
theorem mapUnitsGet_scale_pos (d : UnitType) (name : String) :
    0 < (mapUnitsGet d name).scale := by
  unfold mapUnitsGet
  cases h : mapUnits d name with
  | none => exact one_pos
  | some u => exact mapUnits_scale_pos d name u h

/-- The operator case of the solver preserves positive unit scales. -/
theorem applyOp_scale_pos (cfg : Config) (text : String) (op : Operator)
    (mem : List Solution) (hm : ∀ s ∈ mem, 0 < s.units.scale) :
    0 < (applyOp cfg text op mem).units.scale := by
  rcases mem with _ | ⟨m0, _ | ⟨m1, tl⟩⟩
  · simp only [applyOp]
    split_ifs <;> exact one_pos
  · have h0 : 0 < m0.units.scale := hm m0 (by simp)
    simp only [applyOp]
    split_ifs <;> first | exact one_pos | exact h0
  · have h0 : 0 < m0.units.scale := hm m0 (by simp)
    have h1 : 0 < m1.units.scale := hm m1 (by simp)
    simp only [applyOp]
    split_ifs <;> first | exact one_pos | exact h0 | exact h1

/-- Operands popped by `popN` come from the stack, and so does the remaining
stack. -/
theorem popN_mem {n : Nat} {stk mem rest : List Solution}
    (h : popN n stk = .ok (mem, rest)) :
    (∀ s ∈ mem, s ∈ stk) ∧ (∀ s ∈ rest, s ∈ stk) := by
  induction n generalizing stk mem rest with
  | zero =>
    rw [popN] at h
    cases h
    exact ⟨by simp, fun s hs => hs⟩
  | succ n ih =>
    cases stk with
    | nil => rw [popN] at h; cases h
    | cons s0 stk2 =>
      rw [popN] at h
      cases h2 : popN n stk2 with
      | error e => rw [h2] at h; cases h
      | ok pr =>
        obtain ⟨mem2, rest2⟩ := pr
        rw [h2] at h
        simp only at h
        cases h
        obtain ⟨hmem2, hrest2⟩ := ih h2
        constructor
        · intro s hs
          rcases List.mem_cons.mp hs with rfl | hs
          · exact List.mem_cons_self _ _
          · exact List.mem_cons_of_mem _ (hmem2 s hs)
        · intro s hs
          exact List.mem_cons_of_mem _ (hrest2 s hs)

/-- Every solution produced by the RPN evaluation loop over any postfix
sequence has a strictly positive unit scale. -/
theorem rpnLoop_scale_pos (cfg : Config) (insts : List Token) :
    ∀ (stk out : List Solution),
      (∀ s ∈ stk, 0 < s.units.scale) → rpnLoop cfg insts stk = .ok out →
      ∀ s ∈ out, 0 < s.units.scale := by
  induction insts with
  | nil =>
    intro stk out hstk h
    rw [rpnLoop] at h
    cases h
    exact hstk
  | cons inst rest ih =>
    intro stk out hstk h
    rw [rpnLoop.eq_def] at h
    simp only at h
    split_ifs at h with h1 h2 h3
    · -- literal push
      refine ih _ out ?_ h
      intro s hs
      rcases List.mem_cons.mp hs with rfl | hs
      · exact one_pos
      · exact hstk s hs
    · -- unit application
      cases stk with
      | nil => cases h
      | cons mem stk2 =>
        refine ih _ out ?_ h
        intro s hs
        rcases List.mem_cons.mp hs with rfl | hs
        · exact mapUnitsGet_scale_pos cfg.desiredUnitType inst.text
        · exact hstk s (List.mem_cons_of_mem _ hs)
    · -- operator application
      cases hp : popN (opLookup inst.text).arguments stk with
      | error e => rw [hp] at h; cases h
      | ok pr =>
        obtain ⟨mem, stk2⟩ := pr
        rw [hp] at h
        simp only at h
        obtain ⟨hmem, hstk2⟩ := popN_mem hp
        refine ih _ out ?_ h
        intro s hs
        rcases List.mem_cons.mp hs with rfl | hs
        · exact applyOp_scale_pos cfg inst.text (opLookup inst.text) mem
            (fun q hq => hstk q (hmem q hq))
        · exact hstk s (hstk2 s hs)

/-- The default unit of every output system has a positive scale. -/
theorem DefaultUnit_scale_pos (cfg : Config) : 0 < (DefaultUnit cfg).scale := by
  unfold DefaultUnit
  split_ifs
  · exact one_pos
  · exact of_decide_eq_true (by with_unfolding_all rfl)

/-- The imperial normalisation ladder only rewrites the scale to positive
rungs. -/
theorem NormaliseImperialGo_scale_pos (fuel : Nat) :
    ∀ r : Solution, 0 < r.units.scale → 0 < (NormaliseImperialGo fuel r).units.scale := by
  induction fuel with
  | zero => intro r h; rw [NormaliseImperialGo]; exact h
  | succ n ih =>
    intro r h
    rw [NormaliseImperialGo]
    split_ifs <;>
      first
        | exact h
        | exact ih _ (of_decide_eq_true (by with_unfolding_all rfl))

/-- The metric normalisation ladder only rewrites the scale to positive
rungs. -/
theorem NormaliseMetricGo_scale_pos (fuel : Nat) :
    ∀ r : Solution, 0 < r.units.scale → 0 < (NormaliseMetricGo fuel r).units.scale := by
  induction fuel with
  | zero => intro r h; rw [NormaliseMetricGo]; exact h
  | succ n ih =>
    intro r h
    rw [NormaliseMetricGo]
    split_ifs <;>
      first
        | exact h
        | exact ih _ (of_decide_eq_true (by with_unfolding_all rfl))

/-- `NormaliseImperial` preserves positive scales. -/
theorem NormaliseImperial_scale_pos (cfg : Config) (r : Solution)
    (h : 0 < r.units.scale) : 0 < (NormaliseImperial cfg r).units.scale := by
  unfold NormaliseImperial
  split_ifs
  · exact DefaultUnit_scale_pos cfg
  · exact NormaliseImperialGo_scale_pos 8 r h

/-- `NormaliseMetric` preserves positive scales. -/
theorem NormaliseMetric_scale_pos (cfg : Config) (r : Solution)
    (h : 0 < r.units.scale) : 0 < (NormaliseMetric cfg r).units.scale := by
  unfold NormaliseMetric
  split_ifs
  · exact DefaultUnit_scale_pos cfg
  · exact NormaliseMetricGo_scale_pos 8 r h

/-- The post-evaluation unit resolution preserves positive unit scales. -/
theorem resolveUnits_scale_pos (cfg : Config) (result0 : Solution) (b : Bool)
    (prev : Option Solution) (h0 : 0 < result0.units.scale)
    (hprev : ∀ p, prev = some p → 0 < p.units.scale) :
    0 < (resolveUnits cfg result0 b prev).units.scale := by
  have step : ∀ r2 : Solution, 0 < r2.units.scale →
      0 < (if cfg.desiredUnitType = .Imperial then NormaliseImperial cfg r2
        else if cfg.desiredUnitType = .Metric then NormaliseMetric cfg r2
        else r2).units.scale := by
    intro r2 h2
    split_ifs
    · exact NormaliseImperial_scale_pos cfg r2 h2
    · exact NormaliseMetric_scale_pos cfg r2 h2
    · exact h2
  cases prev with
  | none =>
    simp only [resolveUnits]
    apply step
    split_ifs <;> first | exact one_pos | exact h0
  | some p =>
    have hp : 0 < p.units.scale := hprev p rfl
    simp only [resolveUnits]
    apply step
    split_ifs <;> first | exact one_pos | exact h0 | exact hp

/-- `Solve` only returns solutions with strictly positive unit scales,
provided any caller-supplied previous solution has one. -/
theorem Solve_scale_pos (cfg : Config) (tokens : List Token) (prev : Option Solution)
    (hprev : ∀ p, prev = some p → 0 < p.units.scale) (sol : Solution)
    (h : Solve cfg tokens prev = .ok sol) : 0 < sol.units.scale := by
  unfold Solve at h
  cases hs : shuntLoop tokens [] [] .Literal_Numeric 0 false with
  | error e => rw [hs] at h; cases h
  | ok pr =>
    obtain ⟨stkOutput, bExplicitUnits⟩ := pr
    rw [hs] at h
    simp only at h
    cases hr : rpnLoop cfg stkOutput [] with
    | error e => rw [hr] at h; cases h
    | ok stkSolve =>
      rw [hr] at h
      match stkSolve, h with
      | [result0], h =>
        have hres0 : 0 < result0.units.scale :=
          rpnLoop_scale_pos cfg stkOutput [] [result0] (by simp) hr result0 (by simp)
        cases h
        exact resolveUnits_scale_pos cfg result0 bExplicitUnits prev hres0 hprev
      | [], h => cases h
      | r1 :: r2 :: rs, h => cases h

/-- C9: every unit stored in the rebuilt unit maps has a strictly positive
scale, and every solution returned by `Solve` or `Eval` has a strictly
positive unit scale whenever the caller-supplied previous solution does. -/
theorem unit_scales_always_positive :
    (∀ (d : UnitType) (name : String) (u : Unit),
      mapUnits d name = some u → 0 < u.scale) ∧
    (∀ (cfg : Config) (tokens : List Token) (prev : Option Solution) (sol : Solution),
      (∀ p, prev = some p → 0 < p.units.scale) →
      Solve cfg tokens prev = .ok sol → 0 < sol.units.scale) ∧
    (∀ (cfg : Config) (s : String) (prev : Option Solution) (sol : Solution),
      (∀ p, prev = some p → 0 < p.units.scale) →
      Eval cfg s prev = .ok sol → 0 < sol.units.scale) := by
  refine ⟨mapUnits_scale_pos,
    fun cfg tokens prev sol hprev h => Solve_scale_pos cfg tokens prev hprev sol h, ?_⟩
  intro cfg s prev sol hprev h
  unfold Eval at h
  cases hp : Parse cfg s with
  | error e => rw [hp] at h; cases h
  | ok vTokens =>
    rw [hp] at h
    exact Solve_scale_pos cfg vTokens prev hprev sol h

/-- Witness for C9: the stored unit "mm" and a concrete solve and eval all
produce strictly positive scales. -/
theorem unit_scales_always_positive_check :
    (0 : ℚ) < ((⟨0.001, .Metric⟩ : Unit)).scale ∧
    (0 : ℚ) < ((⟨1, ⟨1, .Metric⟩⟩ : Solution)).units.scale ∧
    (0 : ℚ) < ((⟨0.005, ⟨0.001, .Metric⟩⟩ : Solution)).units.scale :=
  ⟨unit_scales_always_positive.1 .Metric ("mm") ⟨0.001, .Metric⟩
      (by with_unfolding_all rfl),
    unit_scales_always_positive.2.1 cfgMetric [⟨0, .Literal_Numeric, ("1"), 1⟩] none
      ⟨1, ⟨1, .Metric⟩⟩ (fun p hp => by cases hp) (by with_unfolding_all rfl),
    unit_scales_always_positive.2.2 cfgMetric ("5mm") none
      ⟨0.005, ⟨0.001, .Metric⟩⟩ (fun p hp => by cases hp) (by with_unfolding_all rfl)⟩

end Numeric
